import Mathlib

/-!
Verification of the ERW (enhanced rock weathering) domain pipeline of the
`treehacks25` repository: scenario validation (`InferenceRequest`,
`src/main/Model.py`), the soil/feedstock mixture model
(`Model._calculate_soil_bulk_density`, `Model._calculate_volume_fraction`),
the concentration aggregator (`Model._compute_total_concentration` and the
scalar-total extraction in `Model.run_simulation`), and the financial model
(`src/main/utils/financial_analysis.py`).

Python floats are embedded as rationals (ℚ); the properties at stake are
algebraic identities and orderings of the formulas, which the rational
embedding captures faithfully.  Python `Optional` arguments become
`Option ℚ`, with Python truthiness (`x or d`, `if x:`) modelled explicitly.
-/

namespace ERW

/-! ## Scenario validation (src/main/Model.py, `InferenceRequest`, lines 17–59) -/

/-- The raw fields of one simulation request, as in the pydantic model
`InferenceRequest` (src/main/Model.py lines 17–27). -/
structure InferenceRequest where
  address : String
  feedstock_type : String
  area : ℚ
  time_period : ℤ
  application_rate : ℚ
  clay_pct : ℚ
  silt_pct : ℚ
  sand_pct : ℚ
  deriving DecidableEq, Repr

/-- Python's `str.strip()` with no arguments, as used by `validate_address`:
drop whitespace from both ends (returned as the remaining character list). -/
def pyStrip (s : String) : List Char :=
  ((s.data.dropWhile Char.isWhitespace).reverse.dropWhile
    Char.isWhitespace).reverse

/-- The supported feedstock minerals (src/main/Model.py line 37). -/
def supportedFeedstocks : List String := ["basalt", "larnite", "wollastonite"]

/-- Pydantic construction of `InferenceRequest` succeeds iff every field
constraint and validator passes:
* `area`, `time_period`, `application_rate`, `clay_pct`, `silt_pct`,
  `sand_pct` all carry `Field(..., gt=0)` (lines 20–27);
* `validate_address` requires `v.strip()` non-empty (lines 29–33);
* `validate_feedstock_type` requires membership in
  `["basalt", "larnite", "wollastonite"]` (lines 35–41);
* `validate_clay_pct` / `validate_silt_pct` / `validate_sand_pct` each
  reject `v < 0 or v > 100` (lines 43–59). -/
def inferenceRequestValid (r : InferenceRequest) : Bool :=
  decide (0 < r.area) &&
  decide (0 < r.time_period) &&
  decide (0 < r.application_rate) &&
  decide (0 < r.clay_pct) &&
  decide (0 < r.silt_pct) &&
  decide (0 < r.sand_pct) &&
  !(pyStrip r.address).isEmpty &&
  supportedFeedstocks.contains r.feedstock_type &&
  !(decide (r.clay_pct < 0) || decide (100 < r.clay_pct)) &&
  !(decide (r.silt_pct < 0) || decide (100 < r.silt_pct)) &&
  !(decide (r.sand_pct < 0) || decide (100 < r.sand_pct))

/-- The guard at the top of `Model.run_simulation`
(src/main/Model.py lines 218–223): it re-checks the time period and then
rejects when `clay_pct + silt_pct + sand_pct > 1` — the literal constant in
the source is `1`, not `100`. -/
def runSimulationPrecheck (r : InferenceRequest) : Except String Unit :=
  if r.time_period ≤ 0 then
    Except.error "The time period must be greater than zero."
  else if r.clay_pct + r.silt_pct + r.sand_pct > 1 then
    Except.error
      "The sum of clay, silt, and sand percentages must not be greater than 1."
  else
    Except.ok ()

/-! ## Soil/feedstock mixture model (src/main/Model.py lines 90–103) -/

/-- `Model._calculate_soil_bulk_density` (src/main/Model.py lines 90–93). -/
def calculate_soil_bulk_density (clay_pct silt_pct sand_pct : ℚ) : ℚ :=
  13/10 + 45/10000 * sand_pct - 45/10000 * clay_pct - 2/1000 * silt_pct

/-- `Model._calculate_volume_fraction` (src/main/Model.py lines 95–103):
`mixing_depth = 30`, `porosity = 0.4`,
`feedstock_mass_per_cm2 = application_rate * 0.01`,
`feedstock_volume = feedstock_mass_per_cm2 / feedstock_density`,
`soil_volume = mixing_depth * (1 - porosity) / soil_density`,
result `feedstock_volume / (soil_volume + feedstock_volume)`. -/
def calculate_volume_fraction
    (feedstock_density soil_density application_rate : ℚ) : ℚ :=
  let mixing_depth : ℚ := 30
  let porosity : ℚ := 4/10
  let feedstock_mass_per_cm2 := application_rate * (1/100)
  let feedstock_volume := feedstock_mass_per_cm2 / feedstock_density
  let soil_volume := mixing_depth * (1 - porosity) / soil_density
  feedstock_volume / (soil_volume + feedstock_volume)

/-! ## Concentration aggregator (src/main/Model.py lines 111–126, 227–234) -/

/-- Fixed constant `Model.FIXED_DEPTH = 0.25` (src/main/Model.py line 68). -/
def FIXED_DEPTH : ℚ := 1/4

/-- Fixed constant `Model.MOLECULAR_WEIGHT_CO2 = 44.01`
(src/main/Model.py line 69). -/
def MOLECULAR_WEIGHT_CO2 : ℚ := 4401/100

/-- Fixed constant `Model.CO_2_DENSITY = 1.98` (src/main/Model.py line 70). -/
def CO_2_DENSITY : ℚ := 198/100

/-- Running cumulative sum carrying an accumulator, as computed by
`pandas.Series.cumsum`: same length as the input, i-th output =
accumulator + sum of the first i+1 inputs. -/
def cumsumAux (acc : ℚ) : List ℚ → List ℚ
  | [] => []
  | x :: xs => (acc + x) :: cumsumAux (acc + x) xs

/-- `co2_values.cumsum()` on a series embedded as a list. -/
def cumsum (l : List ℚ) : List ℚ := cumsumAux 0 l

/-- `Model._compute_total_concentration` (src/main/Model.py lines 111–126):
the running cumulative sum of the samples, each value multiplied by
`FIXED_DEPTH * area * MOLECULAR_WEIGHT_CO2 * porosity * CO_2_DENSITY`. -/
def compute_total_concentration (co2_series : List ℚ) (porosity area : ℚ) :
    List ℚ :=
  (cumsum co2_series).map
    (fun x => x * FIXED_DEPTH * area * MOLECULAR_WEIGHT_CO2 * porosity *
      CO_2_DENSITY)

/-- The aggregation step of `Model.run_simulation`
(src/main/Model.py lines 231–237): compute the concentration time series and
extract `concentration_ts.iloc[-1]` as the scalar total.  On an empty series
`_compute_total_concentration` returns an empty series without error, and
`.iloc[-1]` then raises pandas' `IndexError: single positional indexer is
out-of-bounds`; no error reading "no samples to aggregate" exists anywhere in
the repository. -/
def totalCo2 (co2_series : List ℚ) (porosity area : ℚ) :
    Except String (List ℚ × ℚ) :=
  let concentration_ts := compute_total_concentration co2_series porosity area
  match concentration_ts.getLast? with
  | none => Except.error "single positional indexer is out-of-bounds"
  | some total => Except.ok (concentration_ts, total)

/-! ## Financial model (src/main/utils/financial_analysis.py) -/

/-- `FeedstockType` (src/main/utils/financial_analysis.py lines 6–9). -/
inductive FeedstockType where
  | basalt
  | larnite
  | wollastonite
  deriving DecidableEq, Repr

/-- `FeedstockPricing` (src/main/utils/financial_analysis.py lines 11–18). -/
structure FeedstockPricing where
  cost_per_ton : ℚ
  transport_cost_per_ton : ℚ := 0
  deriving DecidableEq, Repr

/-- `FeedstockPricing.total_cost_per_ton` (lines 16–18). -/
def FeedstockPricing.total_cost_per_ton (p : FeedstockPricing) : ℚ :=
  p.cost_per_ton + p.transport_cost_per_ton

/-- The mutable class-level table `FinancialParameters.FEEDSTOCK_PRICES`
(lines 22–26): one `FeedstockPricing` record per feedstock type, shared by
every call.  Because `calculate_costs` assigns to
`feedstock_pricing.transport_cost_per_ton` in place, the table is the piece
of state the financial functions read and write; it is threaded explicitly
through the embedding. -/
structure PricingTable where
  basalt : FeedstockPricing
  larnite : FeedstockPricing
  wollastonite : FeedstockPricing
  deriving DecidableEq, Repr

/-- The table as initialised at module load:
basalt $50/ton, larnite $60/ton, wollastonite $200/ton, each with the default
`transport_cost_per_ton = 0`. -/
def initialPricingTable : PricingTable :=
  { basalt := { cost_per_ton := 50 }
    larnite := { cost_per_ton := 60 }
    wollastonite := { cost_per_ton := 200 } }

/-- `params.FEEDSTOCK_PRICES[feedstock_type]` lookup. -/
def PricingTable.get (t : PricingTable) : FeedstockType → FeedstockPricing
  | FeedstockType.basalt => t.basalt
  | FeedstockType.larnite => t.larnite
  | FeedstockType.wollastonite => t.wollastonite

/-- In-place update `feedstock_pricing.transport_cost_per_ton = v` of the
shared table entry for one feedstock type. -/
def PricingTable.setTransport (t : PricingTable) (ft : FeedstockType) (v : ℚ) :
    PricingTable :=
  match ft with
  | FeedstockType.basalt =>
      { t with basalt := { t.basalt with transport_cost_per_ton := v } }
  | FeedstockType.larnite =>
      { t with larnite := { t.larnite with transport_cost_per_ton := v } }
  | FeedstockType.wollastonite =>
      { t with wollastonite :=
          { t.wollastonite with transport_cost_per_ton := v } }

/-- Default `DEFAULT_MRV_COST_PER_TON = 100.0` (line 29). -/
def DEFAULT_MRV_COST_PER_TON : ℚ := 100

/-- Default `DEFAULT_SPREADING_COST_PER_HA = 35.0` (line 32). -/
def DEFAULT_SPREADING_COST_PER_HA : ℚ := 35

/-- Default `INITIAL_CARBON_PRICE = 340.0` (line 35). -/
def INITIAL_CARBON_PRICE : ℚ := 340

/-- Default `ANNUAL_PRICE_GROWTH = 0.05` (line 36). -/
def ANNUAL_PRICE_GROWTH : ℚ := 5/100

/-- Default `DEFAULT_YIELD_INCREASE = 0.05` (line 39). -/
def DEFAULT_YIELD_INCREASE : ℚ := 5/100

/-- Default `DEFAULT_BASE_CROP_REVENUE = 2000.0` (line 40). -/
def DEFAULT_BASE_CROP_REVENUE : ℚ := 2000

/-- Python truthiness of an optional float: `None` and `0.0` are falsy,
every other value truthy (used by `if transport_distance_km:`). -/
def truthy : Option ℚ → Bool
  | none => false
  | some x => decide (x ≠ 0)

/-- Python's `v or d` on an optional float: yields `d` when `v` is `None`
or `0.0`, otherwise the value of `v` (negative values are truthy and kept). -/
def orDefault (v : Option ℚ) (d : ℚ) : ℚ :=
  match v with
  | none => d
  | some x => if x = 0 then d else x

/-- The cost breakdown dictionary returned by `calculate_costs`
(lines 74–80). -/
structure CostBreakdown where
  feedstock_cost : ℚ
  transport_cost : ℚ
  spreading_cost : ℚ
  mrv_cost : ℚ
  total_cost : ℚ
  deriving DecidableEq, Repr

/-- `calculate_costs` (src/main/utils/financial_analysis.py lines 47–80),
with the shared pricing table threaded as explicit state.  When
`transport_distance_km` is truthy the call assigns
`feedstock_pricing.transport_cost_per_ton = 0.15 * transport_distance_km`
into the shared table entry before reading prices.  Note the returned
`total_cost` is `feedstock_cost + spreading_cost + mrv_cost` — the
`transport_cost` entry is not added again (it is already inside
`feedstock_cost` via `total_cost_per_ton`). -/
def calculate_costs (table : PricingTable) (feedstock_type : FeedstockType)
    (application_rate area_ha co2_sequestered_tons : ℚ)
    (transport_distance_km mrv_cost_per_ton spreading_cost_per_ha : Option ℚ) :
    CostBreakdown × PricingTable :=
  let table :=
    if truthy transport_distance_km then
      table.setTransport feedstock_type
        (15/100 * transport_distance_km.getD 0)
    else table
  let feedstock_pricing := table.get feedstock_type
  let feedstock_cost :=
    application_rate * area_ha * feedstock_pricing.total_cost_per_ton
  let spreading_cost :=
    orDefault spreading_cost_per_ha DEFAULT_SPREADING_COST_PER_HA * area_ha
  let mrv_cost :=
    orDefault mrv_cost_per_ton DEFAULT_MRV_COST_PER_TON * co2_sequestered_tons
  (⟨feedstock_cost,
    feedstock_pricing.transport_cost_per_ton * application_rate * area_ha,
    spreading_cost,
    mrv_cost,
    feedstock_cost + spreading_cost + mrv_cost⟩,
   table)

/-- The revenue breakdown dictionary returned by `calculate_revenue`
(lines 109–113). -/
structure RevenueBreakdown where
  carbon_revenue : ℚ
  agricultural_benefit : ℚ
  total_revenue : ℚ
  deriving DecidableEq, Repr

/-- `calculate_revenue` (src/main/utils/financial_analysis.py lines 82–113):
`carbon_price` and `price_growth` default via `is None` checks (explicit `0.0`
is honored); `yield_increase` and `base_crop_revenue` default via `or`
(explicit `0.0` falls back to the module default). -/
def calculate_revenue (co2_sequestered_tons area_ha : ℚ) (year : ℕ)
    (carbon_price price_growth yield_increase base_crop_revenue : Option ℚ) :
    RevenueBreakdown :=
  let carbon_price := carbon_price.getD INITIAL_CARBON_PRICE
  let price_growth := price_growth.getD ANNUAL_PRICE_GROWTH
  let current_carbon_price := carbon_price * (1 + price_growth) ^ year
  let carbon_revenue := co2_sequestered_tons * current_carbon_price
  let ag_benefit := area_ha *
    (orDefault yield_increase DEFAULT_YIELD_INCREASE *
     orDefault base_crop_revenue DEFAULT_BASE_CROP_REVENUE)
  ⟨carbon_revenue, ag_benefit, carbon_revenue + ag_benefit⟩

/-- The result dictionary of `calculate_breakeven` (lines 167–170). -/
structure BreakevenResult where
  annual_cash_flows : List ℚ
  cumulative_cash_flows : List ℚ
  deriving DecidableEq, Repr

/-- `calculate_breakeven` (src/main/utils/financial_analysis.py
lines 115–170), called with no extra keyword arguments (`kwargs = {}`, so
every optional cost/revenue parameter takes its default).  Year 0 books the
one-time cost with `application_rate` as given; the loop over
`year in range(1, years+1)` appends
`revenue(year).total_revenue − calculate_costs(application_rate=0).mrv_cost`
and keeps the running cumulative sum that starts at `-total_cost`.  The
year-0 `calculate_costs` call is made with `transport_distance_km = None`,
which leaves the pricing table unchanged, so the table threaded into the
loop is the same one. -/
def calculate_breakeven (table : PricingTable) (co2_sequestration_rate : ℚ)
    (feedstock_type : FeedstockType) (application_rate area_ha : ℚ)
    (years : ℕ) : BreakevenResult :=
  let total_co2 := co2_sequestration_rate * area_ha
  let costsCall := calculate_costs table feedstock_type application_rate
    area_ha total_co2 none none none
  let costs := costsCall.1
  let table := costsCall.2
  let annual_cash_flows := (List.range years).map (fun i =>
    let year := i + 1
    let revenue := calculate_revenue total_co2 area_ha year none none none none
    let annual_costs := (calculate_costs table feedstock_type 0 area_ha
      total_co2 none none none).1.mrv_cost
    revenue.total_revenue - annual_costs)
  let cumulative_cash_flows :=
    annual_cash_flows.scanl (fun c x => c + x) (-costs.total_cost)
  ⟨annual_cash_flows, cumulative_cash_flows⟩

/-! ## Helper lemmas -/

/-- `cumsumAux` preserves the length of the series. -/
theorem cumsumAux_length (l : List ℚ) : ∀ acc : ℚ,
    (cumsumAux acc l).length = l.length := by
  induction l with
  | nil => intro acc; rfl
  | cons x xs ih => intro acc; simp [cumsumAux, ih]

/-- The i-th entry of `cumsumAux acc l` is `acc` plus the sum of the first
`i+1` entries of `l`. -/
theorem cumsumAux_getD (l : List ℚ) : ∀ (acc : ℚ) (i : ℕ), i < l.length →
    (cumsumAux acc l).getD i 0 = acc + (l.take (i + 1)).sum := by
  induction l with
  | nil => intro acc i h; simp at h
  | cons x xs ih =>
      intro acc i h
      cases i with
      | zero => simp [cumsumAux]
      | succ j =>
          have hj : j < xs.length := by simpa using h
          simp only [cumsumAux, List.getD_cons_succ, List.take_succ_cons,
            List.sum_cons]
          rw [ih (acc + x) j hj]
          ring

/-- `compute_total_concentration` preserves the length of the series. -/
theorem compute_total_concentration_length (l : List ℚ) (p a : ℚ) :
    (compute_total_concentration l p a).length = l.length := by
  simp [compute_total_concentration, cumsum, cumsumAux_length]

/-- The scan of running sums satisfies the step recurrence at every index. -/
theorem scanl_add_getD_succ (l : List ℚ) : ∀ (b : ℚ) (i : ℕ), i < l.length →
    (l.scanl (fun c x => c + x) b).getD (i + 1) 0 =
      (l.scanl (fun c x => c + x) b).getD i 0 + l.getD i 0 := by
  induction l with
  | nil => intro b i h; simp at h
  | cons x xs ih =>
      intro b i h
      cases i with
      | zero => simp [List.scanl]
      | succ j =>
          have hj : j < xs.length := by simpa using h
          simpa [List.scanl] using ih (b + x) j hj

/-- The scan of running sums starts at its initial value. -/
theorem scanl_add_getD_zero (l : List ℚ) (b : ℚ) :
    (l.scanl (fun c x => c + x) b).getD 0 0 = b := by
  cases l <;> rfl

/-- A call to `calculate_costs` with no transport distance returns the
pricing table unchanged. -/
theorem calculate_costs_none_snd (table : PricingTable) (ft : FeedstockType)
    (r a c : ℚ) (mrv sp : Option ℚ) :
    (calculate_costs table ft r a c none mrv sp).2 = table := rfl

/-- `getD` with default `0` commutes with `map` at in-range indices. -/
theorem getD_map_of_lt (l : List ℚ) (f : ℚ → ℚ) (i : ℕ) (h : i < l.length) :
    (l.map f).getD i 0 = f (l.getD i 0) := by
  rw [List.getD_eq_getElem?_getD, List.getElem?_map,
    List.getElem?_eq_getElem h, List.getD_eq_getElem?_getD,
    List.getElem?_eq_getElem h]
  rfl

/-- `t ↦ t / (s + t)` is strictly increasing on nonnegatives for `s > 0`. -/
theorem div_add_self_lt_div_add_self (s t1 t2 : ℚ) (hs : 0 < s)
    (h1 : 0 ≤ t1) (h12 : t1 < t2) :
    t1 / (s + t1) < t2 / (s + t2) := by
  have hd1 : 0 < s + t1 := by linarith
  have hd2 : 0 < s + t2 := by linarith
  rw [div_lt_div_iff₀ hd1 hd2]
  nlinarith

/-! ## Claim theorems -/

/-- C1: the request with clay = silt = sand = 20 — every percentage in
[0, 100], sum 60 ≤ 100, all other fields valid (construction succeeds) — is
nonetheless rejected by the sum check in `Model.run_simulation`, because the
source compares the sum of the three percentage fields against the literal
`1`, not `100`.  This contradicts the code's own field documentation and
validators, which treat the fields as percentages on a 0–100 scale. -/
theorem sum_check_threshold_is_one_not_hundred :
    (let r : InferenceRequest :=
      ⟨"1 Main St", "basalt", 100, 10, 50, 20, 20, 20⟩
     inferenceRequestValid r = true ∧
     (0 ≤ r.clay_pct ∧ r.clay_pct ≤ 100) ∧
     (0 ≤ r.silt_pct ∧ r.silt_pct ≤ 100) ∧
     (0 ≤ r.sand_pct ∧ r.sand_pct ≤ 100) ∧
     r.clay_pct + r.silt_pct + r.sand_pct ≤ 100 ∧
     runSimulationPrecheck r =
       Except.error
         "The sum of clay, silt, and sand percentages must not be greater than 1.") := by
  refine ⟨?_, by norm_num, by norm_num, by norm_num, by norm_num, ?_⟩
  · simp [inferenceRequestValid, supportedFeedstocks]
    norm_num
    decide
  · simp [runSimulationPrecheck]
    norm_num

/-- C4 counterexample: a request whose soil percentages all lie in [0, 100]
(clay = 0), with a non-blank address, supported feedstock, and strictly
positive area, time period and application rate, is rejected by construction:
the pydantic fields carry `gt=0`, so a percentage equal to 0 fails
validation, contrary to the claim that such inputs succeed. -/
theorem request_with_zero_percentage_rejected :
    (let r : InferenceRequest :=
      ⟨"1 Main St", "basalt", 100, 10, 50, 0, 30, 30⟩
     pyStrip r.address ≠ [] ∧
     r.feedstock_type ∈ supportedFeedstocks ∧
     0 < r.area ∧ 0 < r.time_period ∧ 0 < r.application_rate ∧
     (0 ≤ r.clay_pct ∧ r.clay_pct ≤ 100) ∧
     (0 ≤ r.silt_pct ∧ r.silt_pct ≤ 100) ∧
     (0 ≤ r.sand_pct ∧ r.sand_pct ≤ 100) ∧
     inferenceRequestValid r = false) := by
  refine ⟨by decide, by decide, by norm_num, by norm_num, by norm_num,
    by norm_num, by norm_num, by norm_num, ?_⟩
  simp [inferenceRequestValid, supportedFeedstocks]

/-- C4 amended: construction of an `InferenceRequest` succeeds exactly when
the stripped address is non-empty, the feedstock type is one of the three
supported minerals, area, time period and application rate are strictly
positive, and every soil percentage lies in the half-open range (0, 100] —
strictly positive, not merely nonnegative, because of the `gt=0` field
constraints. -/
theorem inferenceRequestValid_iff (r : InferenceRequest) :
    inferenceRequestValid r = true ↔
      (pyStrip r.address ≠ [] ∧
       r.feedstock_type ∈ supportedFeedstocks ∧
       0 < r.area ∧ 0 < r.time_period ∧ 0 < r.application_rate ∧
       (0 < r.clay_pct ∧ r.clay_pct ≤ 100) ∧
       (0 < r.silt_pct ∧ r.silt_pct ≤ 100) ∧
       (0 < r.sand_pct ∧ r.sand_pct ≤ 100)) := by
  simp only [inferenceRequestValid, Bool.and_eq_true, decide_eq_true_eq,
    Bool.not_eq_true', Bool.or_eq_false_iff, decide_eq_false_iff_not, not_lt,
    List.isEmpty_eq_false, List.contains, List.elem_iff, ne_eq]
  constructor <;> intro h <;> simp_all
  repeat' apply And.intro
  all_goals first | assumption | linarith

/-- C5 counterexample: on an empty concentration series the aggregation of
`run_simulation` does fail, but via pandas' positional-indexer error raised
by `.iloc[-1]` on the empty result series — the repository contains no
error reading "no samples to aggregate". -/
theorem empty_series_error_is_positional_indexer :
    totalCo2 [] 1 1 =
      Except.error "single positional indexer is out-of-bounds" ∧
    ("single positional indexer is out-of-bounds" : String) ≠
      "no samples to aggregate" := by
  exact ⟨rfl, by decide⟩

/-- C5 amended: the aggregation step (`_compute_total_concentration`
followed by `.iloc[-1]`) succeeds exactly on non-empty concentration
series; on an empty series `_compute_total_concentration` itself returns an
empty series without error and the scalar-total extraction fails with an
index-out-of-bounds error, not with "no samples to aggregate". -/
theorem totalCo2_ok_iff_nonempty (series : List ℚ) (porosity area : ℚ) :
    ((totalCo2 series porosity area).isOk = true ↔ series ≠ []) ∧
    totalCo2 [] porosity area =
      Except.error "single positional indexer is out-of-bounds" := by
  constructor
  · unfold totalCo2
    have hlen := compute_total_concentration_length series porosity area
    constructor
    · intro h hnil
      subst hnil
      simp [compute_total_concentration, cumsum, cumsumAux, Except.isOk,
        Except.toBool] at h
    · intro hne
      have : compute_total_concentration series porosity area ≠ [] := by
        intro hnil
        apply hne
        have := hlen
        rw [hnil] at this
        exact List.length_eq_zero.mp this.symm
      rcases List.getLast?_eq_getLast _ this with h
      simp only [h]
      rfl
  · rfl

/-- C8: `_calculate_volume_fraction` equals
`feedstock_volume / (feedstock_volume + soil_volume)` with
`feedstock_volume = application_rate × 0.01 / feedstock_density` and
`soil_volume = 30 × (1 − 0.4) / soil_density`; at
`(2.9, 1.3, 10)` it equals the spec's expression
`(10×0.01/2.9) / (30×0.6/1.3 + 10×0.01/2.9)`, the exact rational
`13/5233`, which is within `1.3 × 10⁻⁶` of `0.002483`. -/
theorem calculate_volume_fraction_spec
    (feedstock_density soil_density application_rate : ℚ)
    (hf : 0 < feedstock_density) (hs : 0 < soil_density)
    (hr : 0 < application_rate) :
    calculate_volume_fraction feedstock_density soil_density application_rate =
      (application_rate * (1/100) / feedstock_density) /
        (application_rate * (1/100) / feedstock_density +
          30 * (1 - 4/10) / soil_density) ∧
    calculate_volume_fraction (29/10) (13/10) 10 =
      (10 * (1/100) / (29/10)) /
        (30 * (6/10) / (13/10) + 10 * (1/100) / (29/10)) ∧
    calculate_volume_fraction (29/10) (13/10) 10 = 13/5233 ∧
    |calculate_volume_fraction (29/10) (13/10) 10 - 2483/1000000| <
      13/10000000 := by
  refine ⟨?_, ?_, ?_, ?_⟩
  · simp only [calculate_volume_fraction]
    ring
  · simp only [calculate_volume_fraction]
    norm_num
  · simp only [calculate_volume_fraction]
    norm_num
  · simp only [calculate_volume_fraction]
    rw [abs_lt]
    norm_num

/-- C8 witness: the specification instantiated at the concrete example
`feedstock_density = 2.9`, `soil_density = 1.3`, `application_rate = 10`. -/
theorem calculate_volume_fraction_spec_witness :
    0 < (29/10 : ℚ) ∧ 0 < (13/10 : ℚ) ∧ 0 < (10 : ℚ) ∧
    calculate_volume_fraction (29/10) (13/10) 10 =
      (10 * (1/100) / (29/10)) /
        (10 * (1/100) / (29/10) + 30 * (1 - 4/10) / (13/10)) :=
  ⟨by norm_num, by norm_num, by norm_num,
    (calculate_volume_fraction_spec (29/10) (13/10) 10 (by norm_num)
      (by norm_num) (by norm_num)).1⟩

/-- C9: with the density arguments held fixed and positive,
`_calculate_volume_fraction` is strictly increasing in the application
rate. -/
theorem calculate_volume_fraction_strictMono_in_rate
    (feedstock_density soil_density r1 r2 : ℚ)
    (hf : 0 < feedstock_density) (hs : 0 < soil_density)
    (h1 : 0 < r1) (h12 : r1 < r2) :
    calculate_volume_fraction feedstock_density soil_density r1 <
      calculate_volume_fraction feedstock_density soil_density r2 := by
  simp only [calculate_volume_fraction]
  apply div_add_self_lt_div_add_self
  · positivity
  · positivity
  · gcongr

/-- C9 witness: monotonicity instantiated at basalt density 2.9, soil
density 1.3, rates 1 < 2. -/
theorem calculate_volume_fraction_strictMono_in_rate_witness :
    calculate_volume_fraction (29/10) (13/10) 1 <
      calculate_volume_fraction (29/10) (13/10) 2 :=
  calculate_volume_fraction_strictMono_in_rate (29/10) (13/10) 1 2
    (by norm_num) (by norm_num) (by norm_num) (by norm_num)

/-- C2 counterexample: calling `calculate_costs` for basalt with
`application_rate = 1`, `area = 1`, `co2 = 1` and
`transport_distance_km = 100` returns the breakdown
`(feedstock 65, transport 15, spreading 35, mrv 100, total 200)`, and
`200 ≠ 65 + 15 + 35 + 100`: the returned `total_cost` is not the sum of the
four returned components (the transport surcharge sits inside
`feedstock_cost` and the separate `transport_cost` entry is not added). -/
theorem total_cost_not_sum_of_four_components :
    (let b := (calculate_costs initialPricingTable FeedstockType.basalt 1 1 1
      (some 100) none none).1
     b.feedstock_cost = 65 ∧ b.transport_cost = 15 ∧ b.spreading_cost = 35 ∧
     b.mrv_cost = 100 ∧ b.total_cost = 200 ∧
     b.total_cost ≠
       b.feedstock_cost + b.transport_cost + b.spreading_cost + b.mrv_cost) := by
  refine ⟨?_, ?_, ?_, ?_, ?_, ?_⟩ <;>
    simp [calculate_costs, initialPricingTable, PricingTable.setTransport,
      PricingTable.get, FeedstockPricing.total_cost_per_ton, truthy, orDefault,
      DEFAULT_SPREADING_COST_PER_HA, DEFAULT_MRV_COST_PER_TON] <;>
    norm_num

/-- C2 amended: for every call to `calculate_costs`, the returned
`total_cost` equals `feedstock_cost + spreading_cost + mrv_cost` (the
feedstock component already contains the transport surcharge via
`total_cost_per_ton`), and it equals the sum of all four returned
components precisely when the `transport_cost` component is zero. -/
theorem total_cost_eq_three_component_sum (table : PricingTable)
    (ft : FeedstockType) (application_rate area_ha co2 : ℚ)
    (td mrv sp : Option ℚ) :
    (let b := (calculate_costs table ft application_rate area_ha co2
      td mrv sp).1
     b.total_cost = b.feedstock_cost + b.spreading_cost + b.mrv_cost ∧
     (b.total_cost =
        b.feedstock_cost + b.transport_cost + b.spreading_cost + b.mrv_cost ↔
       b.transport_cost = 0)) := by
  refine ⟨rfl, ?_⟩
  dsimp only [calculate_costs]
  constructor <;> intro h <;> linarith

/-- C3 counterexample: two calls to `calculate_costs` with identical
arguments (basalt, rate 1, area 1, co2 1, no transport distance) return
different breakdowns when a call carrying `transport_distance_km = 100` is
interleaved between them: the interleaved call assigns
`transport_cost_per_ton = 15` into the shared class-level
`FEEDSTOCK_PRICES` entry, so the second identical call now reports
`feedstock_cost = 65` instead of `50`. -/
theorem calculate_costs_mutates_shared_pricing_table :
    (let firstCall := (calculate_costs initialPricingTable
      FeedstockType.basalt 1 1 1 none none none).1
     let mutatedTable := (calculate_costs initialPricingTable
      FeedstockType.basalt 1 1 1 (some 100) none none).2
     let secondCall := (calculate_costs mutatedTable
      FeedstockType.basalt 1 1 1 none none none).1
     firstCall.feedstock_cost = 50 ∧ secondCall.feedstock_cost = 65 ∧
     firstCall ≠ secondCall) := by
  refine ⟨?_, ?_, ?_⟩ <;>
    simp [calculate_costs, initialPricingTable, PricingTable.setTransport,
      PricingTable.get, FeedstockPricing.total_cost_per_ton, truthy, orDefault,
      DEFAULT_SPREADING_COST_PER_HA, DEFAULT_MRV_COST_PER_TON] <;>
    norm_num

/-- C3 amended: `calculate_costs` is a deterministic function of its
arguments and the shared pricing-table state; a call whose transport
distance is `None` or `0.0` leaves the table unchanged (so repeated
identical calls with only such calls interleaved agree), while a call with
a nonzero transport distance rewrites the table entry of its feedstock
type — the observable mutation exhibited by the counterexample. -/
theorem calculate_costs_state_free_without_transport (table : PricingTable)
    (ft : FeedstockType) (r a c d : ℚ) (mrv sp : Option ℚ) :
    (calculate_costs table ft r a c none mrv sp).2 = table ∧
    (calculate_costs table ft r a c (some 0) mrv sp).2 = table ∧
    calculate_costs table ft r a c none mrv sp =
      calculate_costs ((calculate_costs table ft r a c none mrv sp).2)
        ft r a c none mrv sp ∧
    (d ≠ 0 → (calculate_costs table ft r a c (some d) mrv sp).2 =
      table.setTransport ft (15/100 * d)) := by
  refine ⟨rfl, ?_, rfl, ?_⟩
  · simp [calculate_costs, truthy]
  · intro hd
    simp [calculate_costs, truthy, hd]

/-- C3 witness: the state behaviour instantiated for basalt with rate,
area and co2 equal to 1: a call without a transport distance leaves the
initial pricing table unchanged, and a call with transport distance 100
rewrites the basalt entry's transport cost to `0.15 × 100`. -/
theorem calculate_costs_state_free_without_transport_witness :
    (calculate_costs initialPricingTable FeedstockType.basalt 1 1 1
      none none none).2 = initialPricingTable ∧
    (calculate_costs initialPricingTable FeedstockType.basalt 1 1 1
      (some 100) none none).2 =
      initialPricingTable.setTransport FeedstockType.basalt (15/100 * 100) :=
  ⟨(calculate_costs_state_free_without_transport initialPricingTable
      FeedstockType.basalt 1 1 1 100 none none).1,
   (calculate_costs_state_free_without_transport initialPricingTable
      FeedstockType.basalt 1 1 1 100 none none).2.2.2 (by norm_num)⟩

/-- C10: passing an explicit `0` for `mrv_cost_per_ton` or
`spreading_cost_per_ha` of `calculate_costs`, or for `yield_increase` or
`base_crop_revenue` of `calculate_revenue`, is indistinguishable from
passing `None` (the `or`-defaulting applies the module default), whereas an
explicit `carbon_price = 0` or `price_growth = 0` is honored: with
`carbon_price = 0` the carbon revenue is `0`, and with `price_growth = 0`
the carbon price is not compounded at all. -/
theorem optional_zero_parameter_defaults (table : PricingTable)
    (ft : FeedstockType) (r a c : ℚ) (td mrv sp : Option ℚ)
    (co2 area : ℚ) (year : ℕ) (cp pg yi bcr : Option ℚ) :
    calculate_costs table ft r a c td (some 0) sp =
      calculate_costs table ft r a c td none sp ∧
    calculate_costs table ft r a c td mrv (some 0) =
      calculate_costs table ft r a c td mrv none ∧
    calculate_revenue co2 area year cp pg (some 0) bcr =
      calculate_revenue co2 area year cp pg none bcr ∧
    calculate_revenue co2 area year cp pg yi (some 0) =
      calculate_revenue co2 area year cp pg yi none ∧
    (calculate_revenue co2 area year (some 0) pg yi bcr).carbon_revenue = 0 ∧
    (calculate_revenue co2 area year cp (some 0) yi bcr).carbon_revenue =
      co2 * cp.getD INITIAL_CARBON_PRICE := by
  refine ⟨?_, ?_, ?_, ?_, ?_, ?_⟩ <;>
    simp [calculate_costs, calculate_revenue, orDefault]

/-- C6: `_compute_total_concentration` returns the running cumulative sum
of the samples, each cumulative value multiplied by
`FIXED_DEPTH × area × MOLECULAR_WEIGHT_CO2 × porosity × CO_2_DENSITY`; on a
non-empty series the scalar total extracted by `run_simulation` is the last
element of that series; on `[1, 1, 1]` with `porosity = 1` and `area = 1`
the result is `[1, 2, 3]` scaled by
`FIXED_DEPTH × MOLECULAR_WEIGHT_CO2 × CO_2_DENSITY` with the scalar total
equal to its last element. -/
theorem compute_total_concentration_spec (series : List ℚ)
    (porosity area : ℚ) :
    (∀ i, i < series.length →
      (compute_total_concentration series porosity area).getD i 0 =
        (series.take (i + 1)).sum * FIXED_DEPTH * area *
          MOLECULAR_WEIGHT_CO2 * porosity * CO_2_DENSITY) ∧
    (series ≠ [] →
      totalCo2 series porosity area =
        Except.ok (compute_total_concentration series porosity area,
          (compute_total_concentration series porosity area).getLast?.getD
            0)) ∧
    compute_total_concentration [1, 1, 1] 1 1 =
      ([1, 2, 3] : List ℚ).map
        (fun x => x * FIXED_DEPTH * MOLECULAR_WEIGHT_CO2 * CO_2_DENSITY) ∧
    (totalCo2 [1, 1, 1] 1 1).toOption.map Prod.snd =
      some (3 * FIXED_DEPTH * MOLECULAR_WEIGHT_CO2 * CO_2_DENSITY) := by
  refine ⟨?_, ?_, ?_, ?_⟩
  · intro i hi
    have hlen : i < (cumsum series).length := by
      simpa [cumsum, cumsumAux_length] using hi
    unfold compute_total_concentration
    rw [getD_map_of_lt _ _ i hlen]
    unfold cumsum
    rw [cumsumAux_getD series 0 i hi]
    ring
  · intro hne
    have hlen : compute_total_concentration series porosity area ≠ [] := by
      intro hnil
      apply hne
      have h := compute_total_concentration_length series porosity area
      rw [hnil] at h
      exact List.length_eq_zero.mp h.symm
    simp only [totalCo2, List.getLast?_eq_getLast _ hlen, Option.getD_some]
  · simp [compute_total_concentration, cumsum, cumsumAux, FIXED_DEPTH,
      MOLECULAR_WEIGHT_CO2, CO_2_DENSITY]
    norm_num
  · simp [totalCo2, compute_total_concentration, cumsum, cumsumAux,
      FIXED_DEPTH, MOLECULAR_WEIGHT_CO2, CO_2_DENSITY, Except.toOption]
    norm_num

/-- C6 witness: the aggregation specification instantiated on the series
`[1, 1, 1]` with `porosity = 1` and `area = 1`, at index 0 and for the
scalar-total equation. -/
theorem compute_total_concentration_spec_witness :
    (compute_total_concentration [1, 1, 1] 1 1).getD 0 0 =
      (([1, 1, 1] : List ℚ).take 1).sum * FIXED_DEPTH * 1 *
        MOLECULAR_WEIGHT_CO2 * 1 * CO_2_DENSITY ∧
    totalCo2 [1, 1, 1] 1 1 =
      Except.ok (compute_total_concentration [1, 1, 1] 1 1,
        (compute_total_concentration [1, 1, 1] 1 1).getLast?.getD 0) :=
  ⟨(compute_total_concentration_spec [1, 1, 1] 1 1).1 0 (by norm_num),
   (compute_total_concentration_spec [1, 1, 1] 1 1).2.1 (by simp)⟩

/-- C7: for every number of years, `calculate_breakeven` (with default
optional parameters) returns `annual_cash_flows` of length `years` and
`cumulative_cash_flows` of length `years + 1`; the cumulative series starts
at minus the one-time total cost computed with the given application rate,
each later cumulative entry adds the corresponding annual flow, each annual
flow for year `i+1` is the total revenue at that year minus the recurring
MRV-only cost computed with the application rate forced to `0`, and for
`years = 0` the cumulative series is exactly `[-total_cost]`. -/
theorem calculate_breakeven_spec (table : PricingTable)
    (co2_sequestration_rate : ℚ) (ft : FeedstockType)
    (application_rate area_ha : ℚ) (years : ℕ) :
    (let res := calculate_breakeven table co2_sequestration_rate ft
      application_rate area_ha years
     let total_co2 := co2_sequestration_rate * area_ha
     let total_cost := (calculate_costs table ft application_rate area_ha
       total_co2 none none none).1.total_cost
     res.annual_cash_flows.length = years ∧
     res.cumulative_cash_flows.length = years + 1 ∧
     res.cumulative_cash_flows.getD 0 0 = -total_cost ∧
     (∀ i, 1 ≤ i → i ≤ years →
       res.cumulative_cash_flows.getD i 0 =
         res.cumulative_cash_flows.getD (i - 1) 0 +
           res.annual_cash_flows.getD (i - 1) 0) ∧
     (∀ i, i < years →
       res.annual_cash_flows.getD i 0 =
         (calculate_revenue total_co2 area_ha (i + 1)
           none none none none).total_revenue -
           (calculate_costs table ft 0 area_ha total_co2
             none none none).1.mrv_cost) ∧
     (years = 0 → res.cumulative_cash_flows = [-total_cost])) := by
  refine ⟨?_, ?_, ?_, ?_, ?_, ?_⟩
  · simp [calculate_breakeven]
  · simp [calculate_breakeven, List.length_scanl]
  · simp only [calculate_breakeven]
    exact scanl_add_getD_zero _ _
  · intro i h1 hy
    obtain ⟨j, rfl⟩ : ∃ j, i = j + 1 := ⟨i - 1, by omega⟩
    simp only [calculate_breakeven, Nat.add_sub_cancel]
    refine scanl_add_getD_succ _ _ j ?_
    simpa using show j < years by omega
  · intro i hi
    simp only [calculate_breakeven]
    rw [List.getD_eq_getElem?_getD, List.getElem?_map,
      List.getElem?_range hi]
    rfl
  · intro h
    subst h
    rfl

/-- C7 witness: the breakeven specification instantiated for basalt with
rates and area equal to 1, at `years = 2` (recurrence at `i = 1`, annual
flow at `i = 0`) and at `years = 0` (singleton cumulative series). -/
theorem calculate_breakeven_spec_witness :
    (calculate_breakeven initialPricingTable 1 FeedstockType.basalt 1 1
      2).cumulative_cash_flows.getD 1 0 =
      (calculate_breakeven initialPricingTable 1 FeedstockType.basalt 1 1
        2).cumulative_cash_flows.getD 0 0 +
      (calculate_breakeven initialPricingTable 1 FeedstockType.basalt 1 1
        2).annual_cash_flows.getD 0 0 ∧
    (calculate_breakeven initialPricingTable 1 FeedstockType.basalt 1 1
      2).annual_cash_flows.getD 0 0 =
      (calculate_revenue (1 * 1) 1 (0 + 1)
        none none none none).total_revenue -
        (calculate_costs initialPricingTable FeedstockType.basalt 0 1 (1 * 1)
          none none none).1.mrv_cost ∧
    (calculate_breakeven initialPricingTable 1 FeedstockType.basalt 1 1
      0).cumulative_cash_flows =
      [-(calculate_costs initialPricingTable FeedstockType.basalt 1 1 (1 * 1)
        none none none).1.total_cost] :=
  ⟨(calculate_breakeven_spec initialPricingTable 1 FeedstockType.basalt 1 1
      2).2.2.2.1 1 (by norm_num) (by norm_num),
   (calculate_breakeven_spec initialPricingTable 1 FeedstockType.basalt 1 1
      2).2.2.2.2.1 0 (by norm_num),
   (calculate_breakeven_spec initialPricingTable 1 FeedstockType.basalt 1 1
      0).2.2.2.2.2 rfl⟩

end ERW
